import Mathlib

/-!
# smartsales-frontend: dynamic reports page and searchable dropdown

A shallow embedding of

* `src/components/ui/SearchableDropdown.jsx` (the `filteredItems` computation and
  the empty-result branch),
* `src/pages/dashboard/analisis/ReportesDinamicos.jsx` (the `useSpeechRecognition`
  hook and the `ReportesDinamicosPage` component with `handleGenerarSubmit`),
* `src/services/analisis.service.js` (`generarReporteDinamico`).

JavaScript strings are modelled by Lean `String`s (well-formed Unicode text).
React state is passed explicitly; side effects that leave the component
(toasts, the HTTP request, the browser download) are appended to a trace.
-/

namespace SmartSales

/-! ## Host string primitives -/

/-- The characters matched by the JavaScript regular-expression class `\s`
(ECMAScript WhiteSpace and LineTerminator code points). -/
def isJsWhitespace (c : Char) : Bool :=
  let n := c.toNat
  n == 0x09 || n == 0x0A || n == 0x0B || n == 0x0C || n == 0x0D || n == 0x20 ||
  n == 0xA0 || n == 0x1680 || (0x2000 ≤ n && n ≤ 0x200A) ||
  n == 0x2028 || n == 0x2029 || n == 0x202F || n == 0x205F || n == 0x3000 || n == 0xFEFF

/-- The call `s.replace(/\s+/g, '')`: every maximal run of whitespace is replaced by
the empty string, which removes exactly the whitespace characters. -/
def removeWhitespace (s : String) : String :=
  String.mk (s.data.filter fun c => !isJsWhitespace c)

/-- The call `s.includes(t)`: some position of `s` starts an occurrence of `t`. -/
def includes (s t : String) : Bool :=
  s.data.tails.any fun rest => t.data.isPrefixOf rest

/-! ## SearchableDropdown.jsx -/

/-- An element of the `items` prop: "CADA objeto debe tener { id, name }". -/
structure Item where
  id : Nat
  name : String
deriving DecidableEq, Repr

/-- The callback given to `items.filter` (lines 22-27). `toLowerCase` is the host's
`String.prototype.toLowerCase`. -/
def itemMatches (toLowerCase : String → String) (query : String) (item : Item) : Bool :=
  includes (removeWhitespace (toLowerCase item.name)) (removeWhitespace (toLowerCase query))

/-- The constant `filteredItems` (lines 19-27). -/
def filteredItems (toLowerCase : String → String) (items : List Item) (query : String) :
    List Item :=
  if query = "" then items
  else items.filter (itemMatches toLowerCase query)

/-- The condition of the empty-result branch (line 51), under which
"No se encontró nada." is rendered instead of the options. -/
def showsNothingFound (toLowerCase : String → String) (items : List Item) (query : String) :
    Bool :=
  (filteredItems toLowerCase items query).length == 0 && query != ""

/-- A lower-casing function for evaluating examples: ASCII letters only. -/
def asciiLower (s : String) : String := String.mk (s.data.map Char.toLower)

/-! ## analisis.service.js -/

/-- The arguments of one `api.post(path, body, options)` call. -/
structure PostRequest where
  path : String
  prompt : String
  fetchFile : Bool
deriving DecidableEq, Repr

/-- The function `generarReporteDinamico` (lines 17-21): posts the body `{ prompt }` to the
report route with the option `_fetchFile: true`. -/
def generarReporteDinamico (prompt : String) : PostRequest :=
  { path := "/api/reportes/generar_reporte/", prompt := prompt, fetchFile := true }

/-! ## Values handled by the catch block of `handleGenerarSubmit` -/

/-- A parsed JSON value, as `await e.response.json()` resolves to. Numbers are the
integral JSON numerals; an object is its list of key/value pairs. -/
inductive Json where
  | null
  | bool (b : Bool)
  | num (n : Int)
  | str (s : String)
  | arr (elems : List Json)
  | obj (fields : List (String × Json))

/-- JavaScript truthiness of a parsed JSON value. -/
def Json.truthy : Json → Bool
  | .null => false
  | .bool b => b
  | .num n => n != 0
  | .str s => s != ""
  | .arr _ => true
  | .obj _ => true

/-- The property read `errorJson.error`. Reading a property of `null` throws a
TypeError (`none`); a value without that property yields `undefined` (`some none`). -/
def Json.readError : Json → Option (Option Json)
  | .null => none
  | .obj fields => some (fields.lookup "error")
  | _ => some none

/-- The expression `value || fallback`, where `none` stands for `undefined`. -/
def jsOr (value : Option Json) (fallback : Json) : Json :=
  match value with
  | some v => if v.truthy then v else fallback
  | none => fallback

/-- What `await e.response.json()` does when `e.response` exists: the promise rejects
(the body is not JSON, or `json` is not callable) or resolves to the parsed value. -/
inductive JsonBody where
  | rejects
  | resolves (value : Json)

/-- The value `e` caught at line 98: an error object with its `message` property
(`none` when undefined) and its `response` property (`none` when there is no response).
Thrown values that are not objects (`null`, `undefined`) are outside the model. -/
structure Failure where
  message : Option String
  response : Option JsonBody

/-- The string concatenation `"Error al generar el reporte: " + e.message`. -/
def genericMessage (e : Failure) : String :=
  "Error al generar el reporte: " ++ e.message.getD "undefined"

/-- The message passed to `toast.error` by the catch block (lines 98-106). The inner `try`
throws when `e.response` is missing, when `json()` rejects, or when the parsed value is
`null`; the inner `catch` then shows the generic message. -/
def catchMessage (e : Failure) : Json :=
  match e.response with
  | none => .str (genericMessage e)
  | some .rejects => .str (genericMessage e)
  | some (.resolves errorJson) =>
    match errorJson.readError with
    | none => .str (genericMessage e)
    | some value => jsOr value (.str "No se encontraron datos.")

/-- How the block that saves the blob (lines 86-94) ends: it completes, or one of its
DOM calls throws before or after `link.click()` has started the download. -/
inductive SaveOutcome where
  | completes
  | throwsBeforeClick (e : Failure)
  | throwsAfterClick (e : Failure)

/-- What the environment does with one accepted submission: the request resolves to a
blob of the given `type` (and the save block ends in some way), or it rejects with `e`. -/
inductive Outcome where
  | blob (type : String) (save : SaveOutcome)
  | rejected (e : Failure)

/-! ## Effects and component state -/

inductive ToastKind where
  | error
  | loading
  | success
deriving DecidableEq, Repr

/-- An effect leaving the page component. A toast carries the id under which it is
shown: a fresh one, or the id of the toast it replaces (`{ id: toastId }`). -/
inductive Effect where
  | toast (kind : ToastKind) (message : Json) (id : Nat)
  | post (request : PostRequest)
  | download (filename : String)

/-- Calls made on the recognizer held in `recognitionRef.current`, with the identity of
the recognizer object that receives the call. -/
inductive DeviceCall where
  | start (recognizer : Nat)
  | stop (recognizer : Nat)
deriving DecidableEq, Repr

/-- A recognizer object built and configured by the effect of `useSpeechRecognition`
(lines 20-23); `identity` tells the objects built by successive runs of the effect
apart. -/
structure Recognition where
  identity : Nat
  continuous : Bool
  interimResults : Bool
  lang : String
deriving DecidableEq, Repr

/-- The state held by `useSpeechRecognition`: two `useState` cells and one ref, plus the
number of recognizer objects built so far and the log of calls made on them. -/
structure SpeechState where
  text : String
  isListening : Bool
  recognitionRef : Option Recognition
  constructed : Nat
  deviceCalls : List DeviceCall
deriving DecidableEq, Repr

/-- The state of `ReportesDinamicosPage`: its `useState` cells, the hook state, the value
of `supported` computed by the last render, the toast id counter, the submissions whose
request has not settled yet (by toast id), and the trace of effects. -/
structure PageState where
  speech : SpeechState
  loading : Bool
  prompt : String
  supported : Bool
  nextToastId : Nat
  inFlight : List Nat
  trace : List Effect

/-- The host: which speech recognition constructors `window` exposes. -/
structure Host where
  speechRecognition : Bool
  webkitSpeechRecognition : Bool
deriving DecidableEq, Repr

/-- The test at line 13-15: `window.SpeechRecognition || window.webkitSpeechRecognition`
is defined. -/
def Host.hasCapability (h : Host) : Bool :=
  h.speechRecognition || h.webkitSpeechRecognition

def Effect.isPost : Effect → Bool
  | .post _ => true
  | _ => false

def Effect.isProgress : Effect → Bool
  | .toast .loading _ _ => true
  | _ => false

/-- A terminal notification: `toast.success` or `toast.error`. -/
def Effect.isTerminal : Effect → Bool
  | .toast .success _ _ => true
  | .toast .error _ _ => true
  | _ => false

def Effect.isToast : Effect → Bool
  | .toast _ _ _ => true
  | _ => false

/-! ## handleGenerarSubmit -/

/-- Lines 82-84: the filename chosen from `blob.type`. -/
def filename (blobType : String) : String :=
  let isExcel : Bool :=
    blobType = "application/vnd.openxmlformats-officedocument.spreadsheetml.sheet"
  let extension := if isExcel then "xlsx" else "pdf"
  "reporte_dinamico." ++ extension

/-- Append effects to the trace. -/
def PageState.emit (s : PageState) (effects : List Effect) : PageState :=
  { s with trace := s.trace ++ effects }

/-- The synchronous part of `handleGenerarSubmit` (lines 70-80), up to the `await`:
returns the new state and, when the request was issued, the id of the loading toast
that the suspended continuation holds. -/
def handleGenerarSubmit_begin (promptToSubmit : String) (s : PageState) :
    PageState × Option Nat :=
  if promptToSubmit = "" then
    ({ s.emit [.toast .error (.str "Por favor, escribe o dicta un comando.") s.nextToastId]
        with nextToastId := s.nextToastId + 1 }, none)
  else
    let toastId := s.nextToastId
    ({ s.emit [.toast .loading (.str "Generando reporte, por favor espera...") toastId,
               .post (generarReporteDinamico promptToSubmit)]
        with loading := true, nextToastId := toastId + 1, inFlight := s.inFlight ++ [toastId] },
     some toastId)

/-- The effects of the continuation of `handleGenerarSubmit` after the `await`
(lines 82-106) for the submission holding `toastId`. -/
def settleEffects (toastId : Nat) : Outcome → List Effect
  | .blob type .completes =>
      [.download (filename type), .toast .success (.str "¡Reporte descargado!") toastId]
  | .blob _ (.throwsBeforeClick e) => [.toast .error (catchMessage e) toastId]
  | .blob type (.throwsAfterClick e) =>
      [.download (filename type), .toast .error (catchMessage e) toastId]
  | .rejected e => [.toast .error (catchMessage e) toastId]

/-- The continuation of `handleGenerarSubmit` after the `await` (lines 82-109),
including the `finally` block. -/
def handleGenerarSubmit_resume (toastId : Nat) (o : Outcome) (s : PageState) : PageState :=
  { s.emit (settleEffects toastId o) with
    loading := false, inFlight := s.inFlight.filter fun i => i != toastId }

/-- One whole call of `handleGenerarSubmit` run without interleaving: the synchronous
part, then the continuation once the environment has answered with `o`. -/
def handleGenerarSubmit (promptToSubmit : String) (o : Outcome) (s : PageState) : PageState :=
  match handleGenerarSubmit_begin promptToSubmit s with
  | (s1, none) => s1
  | (s1, some toastId) => handleGenerarSubmit_resume toastId o s1

/-! ## useSpeechRecognition -/

/-- The recognizer built at lines 20-23. -/
def newRecognition (identity : Nat) : Recognition :=
  { identity := identity, continuous := false, interimResults := false, lang := "es-ES" }

/-- The effect of `useSpeechRecognition` (lines 12-43): when the host has a constructor,
a new configured recognizer is stored in the ref; otherwise the effect returns early.
The effect has no cleanup, so a recognizer built by an earlier run keeps its handlers. -/
def useSpeechRecognition_effect (host : Host) (h : SpeechState) : SpeechState :=
  if host.hasCapability then
    { h with recognitionRef := some (newRecognition h.constructed),
             constructed := h.constructed + 1 }
  else h

/-- The handler `recognition.onresult` (lines 25-33), for an owner with state `σ` that
passed the callback `onResult`. -/
def recognition_onresult {σ : Type} (onResult : Option (String → σ → σ))
    (transcript : String) (h : SpeechState) (owner : σ) : SpeechState × σ :=
  let h1 := { h with text := transcript, isListening := false }
  match onResult with
  | some callback => (h1, callback transcript owner)
  | none => (h1, owner)

/-- The handler `recognition.onerror` (lines 34-37). -/
def recognition_onerror (h : SpeechState) : SpeechState :=
  { h with isListening := false }

/-- The handler `recognition.onend` (lines 38-40). -/
def recognition_onend (h : SpeechState) : SpeechState :=
  { h with isListening := false }

/-- The function `startListening` (lines 45-51). -/
def startListening (h : SpeechState) : SpeechState :=
  match h.recognitionRef with
  | some recognition =>
    if !h.isListening then
      { h with text := "", isListening := true,
               deviceCalls := h.deviceCalls ++ [.start recognition.identity] }
    else h
  | none => h

/-- The function `stopListening` (lines 53-58). -/
def stopListening (h : SpeechState) : SpeechState :=
  match h.recognitionRef with
  | some recognition =>
    if h.isListening then
      { h with isListening := false,
               deviceCalls := h.deviceCalls ++ [.stop recognition.identity] }
    else h
  | none => h

/-- The value `supported` returned by the hook (line 60): `!!recognitionRef.current`. -/
def supported (h : SpeechState) : Bool := h.recognitionRef.isSome

/-! ## ReportesDinamicosPage -/

/-- The `onResult` callback the page passes to the hook (lines 115-119). The suspended
continuation is recorded in `inFlight` by `handleGenerarSubmit_begin`. -/
def onResult (voicePrompt : String) (s : PageState) : PageState :=
  (handleGenerarSubmit_begin voicePrompt { s with prompt := voicePrompt }).1

/-- The handler `recognition.onresult` as wired in the page. -/
def pageOnresult (transcript : String) (s : PageState) : PageState :=
  let r := recognition_onresult (some onResult) transcript s.speech s
  { r.2 with speech := r.1 }

/-- The function `handleFormSubmit` (lines 131-134). -/
def handleFormSubmit (s : PageState) : PageState :=
  (handleGenerarSubmit_begin s.prompt s).1

/-- The state before the first render: the initial values of the `useState` and
`useRef` calls. -/
def initialState : PageState :=
  { speech := { text := "", isListening := false, recognitionRef := none, constructed := 0,
                deviceCalls := [] },
    loading := false, prompt := "", supported := false, nextToastId := 0, inFlight := [],
    trace := [] }

/-- A render of the page: `supported` is read from the ref during the render. -/
def render (s : PageState) : PageState :=
  { s with supported := supported s.speech }

/-- The effects run after a render: the hook's effect, whose dependency `onResult` is a
new function on every render, and the effect that copies a changed, non-empty `text` into
the prompt (lines 123-127), which causes one more render when it changes the prompt. -/
def runEffects (host : Host) (textChanged : Bool) (s : PageState) : PageState :=
  let s1 := { s with speech := useSpeechRecognition_effect host s.speech }
  if textChanged && s1.speech.text != "" && s1.prompt != s1.speech.text then
    let s2 := render { s1 with prompt := s1.speech.text }
    { s2 with speech := useSpeechRecognition_effect host s2.speech }
  else s1

/-- Mounting the page: the first render, then its effects. -/
def mount (host : Host) : PageState :=
  runEffects host true (render initialState)

/-- After an event handler has run: React renders again when a `useState` cell changed,
and then runs the effects. -/
def commit (host : Host) (before after : PageState) : PageState :=
  if before.speech.text = after.speech.text ∧ before.speech.isListening = after.speech.isListening
      ∧ before.loading = after.loading ∧ before.prompt = after.prompt then after
  else runEffects host (before.speech.text != after.speech.text) (render after)

/-- The events the page reacts to. -/
inductive Event where
  | change (value : String)
  | formSubmit
  | micClick
  | result (transcript : String)
  | error
  | speechEnd
  | settle (toastId : Nat) (o : Outcome)

/-- The handler an event runs, with the gating of the rendered page: the textarea and the
submit button are `disabled={loading}`, the voice button exists only when `supported` was
true in the last render and toggles between `stopListening` and `startListening`; a
request can only settle while it is in flight. -/
def handle (s : PageState) : Event → PageState
  | .change value => if s.loading then s else { s with prompt := value }
  | .formSubmit => if s.loading then s else handleFormSubmit s
  | .micClick =>
      if s.supported then
        { s with speech := if s.speech.isListening then stopListening s.speech
                           else startListening s.speech }
      else s
  | .result transcript => pageOnresult transcript s
  | .error => { s with speech := recognition_onerror s.speech }
  | .speechEnd => { s with speech := recognition_onend s.speech }
  | .settle toastId o =>
      if toastId ∈ s.inFlight then handleGenerarSubmit_resume toastId o s else s

/-- One step of the page: the handler, then the render cycle. -/
def step (host : Host) (s : PageState) (e : Event) : PageState :=
  commit host s (handle s e)

/-- A run of the page from a state. -/
def run (host : Host) (s : PageState) (events : List Event) : PageState :=
  events.foldl (step host) s

/-- The number of `api.post` calls in a trace. -/
def postCount (trace : List Effect) : Nat := trace.countP Effect.isPost

/-- The prompts of the `api.post` calls in a trace, in order. -/
def postedPrompts : List Effect → List String
  | [] => []
  | .post request :: rest => request.prompt :: postedPrompts rest
  | _ :: rest => postedPrompts rest

/-- The filenames of the downloads in a trace, in order. -/
def downloads : List Effect → List String
  | [] => []
  | .download name :: rest => name :: downloads rest
  | _ :: rest => downloads rest

/-- The messages of the error toasts in a trace, in order. -/
def errorMessages : List Effect → List Json
  | [] => []
  | .toast .error message _ :: rest => message :: errorMessages rest
  | _ :: rest => errorMessages rest

/-- A string is blank: empty or made of whitespace only. -/
def isBlank (s : String) : Bool := s.data.all isJsWhitespace

/-- A host that exposes only the prefixed constructor `window.webkitSpeechRecognition`. -/
def webkitHost : Host := { speechRecognition := false, webkitSpeechRecognition := true }

/-- The callback of an owner that only records the transcripts it is called with. -/
def recordTranscript (transcript : String) (log : List String) : List String :=
  log ++ [transcript]

/-! ## Facts about the string primitives -/

theorem includes_empty (s : String) : includes s "" = true := by
  unfold includes
  rw [List.any_eq_true]
  refine ⟨s.data, ?_, ?_⟩
  · exact (List.mem_tails _ _).mpr (List.suffix_refl _)
  · simp

theorem includes_iff_contained (s t : String) : includes s t = true ↔ t.data <:+: s.data := by
  unfold includes
  rw [List.any_eq_true]
  constructor
  · rintro ⟨rest, hmem, hpre⟩
    have h1 : rest <:+ s.data := (List.mem_tails _ _).mp hmem
    have h2 : t.data <+: rest := List.isPrefixOf_iff_prefix.mp hpre
    exact List.infix_iff_prefix_suffix.mpr ⟨rest, h2, h1⟩
  · intro h
    obtain ⟨rest, hpre, hsuf⟩ := List.infix_iff_prefix_suffix.mp h
    exact ⟨rest, (List.mem_tails _ _).mpr hsuf, List.isPrefixOf_iff_prefix.mpr hpre⟩

/-! ## Facts about handleGenerarSubmit -/

theorem begin_of_ne_empty (p : String) (s : PageState) (hp : p ≠ "") :
    handleGenerarSubmit_begin p s =
      ({ s.emit [.toast .loading (.str "Generando reporte, por favor espera...") s.nextToastId,
                 .post (generarReporteDinamico p)]
          with loading := true, nextToastId := s.nextToastId + 1,
               inFlight := s.inFlight ++ [s.nextToastId] },
       some s.nextToastId) := by
  simp [handleGenerarSubmit_begin, hp]

theorem submit_trace_of_ne_empty (p : String) (o : Outcome) (s : PageState) (hp : p ≠ "") :
    (handleGenerarSubmit p o s).trace =
      s.trace ++ [.toast .loading (.str "Generando reporte, por favor espera...") s.nextToastId,
                  .post (generarReporteDinamico p)] ++ settleEffects s.nextToastId o := by
  simp [handleGenerarSubmit, begin_of_ne_empty p s hp, handleGenerarSubmit_resume,
    PageState.emit]

theorem downloads_append (xs ys : List Effect) :
    downloads (xs ++ ys) = downloads xs ++ downloads ys := by
  induction xs with
  | nil => rfl
  | cons x xs ih => cases x <;> simp [downloads, ih]

theorem errorMessages_append (xs ys : List Effect) :
    errorMessages (xs ++ ys) = errorMessages xs ++ errorMessages ys := by
  induction xs with
  | nil => rfl
  | cons x xs ih =>
    cases x with
    | toast kind message id => cases kind <;> simp [errorMessages, ih]
    | post request => simp [errorMessages, ih]
    | download name => simp [errorMessages, ih]

theorem postedPrompts_append (xs ys : List Effect) :
    postedPrompts (xs ++ ys) = postedPrompts xs ++ postedPrompts ys := by
  induction xs with
  | nil => rfl
  | cons x xs ih => cases x <;> simp [postedPrompts, ih]

/-- Every way the continuation can end produces effects of the shape
`rest ++ [terminal]`: no toast and no request in `rest`, then one success or error toast
carrying the id of the loading toast. -/
theorem settleEffects_shape (toastId : Nat) (o : Outcome) :
    ∃ rest kind message, kind ≠ ToastKind.loading ∧
      settleEffects toastId o = rest ++ [Effect.toast kind message toastId] ∧
      rest.all (fun e => !e.isToast && !e.isPost) = true := by
  cases o with
  | blob type save =>
    cases save with
    | completes =>
      exact ⟨[.download (filename type)], .success, .str "¡Reporte descargado!",
        by decide, rfl, rfl⟩
    | throwsBeforeClick e => exact ⟨[], .error, catchMessage e, by decide, rfl, rfl⟩
    | throwsAfterClick e =>
      exact ⟨[.download (filename type)], .error, catchMessage e, by decide, rfl, rfl⟩
  | rejected e => exact ⟨[], .error, catchMessage e, by decide, rfl, rfl⟩

theorem countP_rest_zero (q : Effect → Bool) (rest : List Effect)
    (hq : ∀ e, q e = true → e.isToast = true)
    (hrest : rest.all (fun e => !e.isToast && !e.isPost) = true) :
    rest.countP q = 0 := by
  rw [List.countP_eq_zero]
  intro e he hqe
  have h1 := List.all_eq_true.mp hrest e he
  have h2 := hq e hqe
  simp [h2] at h1

/-! ## C1: the validation guard -/

/-- C1, as stated, fails on the whitespace-only prompt `" "`: it is blank, yet submit
shows the progress notification, calls the fetch service with it and shows no
validation notice. -/
theorem C1_whitespace_prompt_is_fetched :
    isBlank " " = true ∧
    postedPrompts (handleGenerarSubmit_begin " " initialState).1.trace = [" "] ∧
    (handleGenerarSubmit_begin " " initialState).1.trace.countP Effect.isProgress = 1 ∧
    errorMessages (handleGenerarSubmit_begin " " initialState).1.trace = [] := by
  refine ⟨by decide, by decide, by decide, rfl⟩

/-- C1, amended: for the empty prompt submit produces exactly the validation notice, with
no fetch call, no progress notification and no change of the loading flag; for every
non-empty prompt (whitespace-only ones included) the progress notification is shown and
the fetch service is called with that prompt. -/
theorem C1_only_empty_prompt_rejected (p : String) (o : Outcome) (s : PageState) :
    (p = "" →
      (handleGenerarSubmit p o s).trace =
        s.trace ++ [.toast .error (.str "Por favor, escribe o dicta un comando.") s.nextToastId] ∧
      (handleGenerarSubmit_begin p s).2 = none ∧
      postCount (handleGenerarSubmit p o s).trace = postCount s.trace ∧
      (handleGenerarSubmit p o s).trace.countP Effect.isProgress =
        s.trace.countP Effect.isProgress ∧
      (handleGenerarSubmit p o s).loading = s.loading ∧
      (handleGenerarSubmit p o s).inFlight = s.inFlight) ∧
    (p ≠ "" →
      (handleGenerarSubmit_begin p s).1.trace =
        s.trace ++ [.toast .loading (.str "Generando reporte, por favor espera...") s.nextToastId,
                    .post (generarReporteDinamico p)] ∧
      (handleGenerarSubmit_begin p s).2 = some s.nextToastId) := by
  constructor
  · intro hp
    subst hp
    simp [handleGenerarSubmit, handleGenerarSubmit_begin, PageState.emit, postCount,
      List.countP_append, List.countP_cons, Effect.isPost, Effect.isProgress]
  · intro hp
    simp [begin_of_ne_empty p s hp, PageState.emit]

theorem C1_only_empty_prompt_rejected_witness :
    (handleGenerarSubmit "" (.blob "application/pdf" .completes) initialState).trace =
      [.toast .error (.str "Por favor, escribe o dicta un comando.") 0] ∧
    (handleGenerarSubmit_begin "   " initialState).1.trace =
      [.toast .loading (.str "Generando reporte, por favor espera...") 0,
       .post (generarReporteDinamico "   ")] :=
  ⟨((C1_only_empty_prompt_rejected "" (.blob "application/pdf" .completes) initialState).1
      rfl).1,
   ((C1_only_empty_prompt_rejected "   " (.blob "application/pdf" .completes) initialState).2
      (by decide)).1⟩

/-! ## C3: one progress notification, then exactly one terminal notification -/

/-- C3: for every non-empty prompt and every outcome of the fetch and save steps, the
effects added by submit are the progress toast, then the fetch call, then effects
without any toast or request, then exactly one terminal toast (success or error) that
carries the id of the progress toast; so there is one progress and one terminal
notification, and the loading flag is cleared. -/
theorem C3_one_progress_then_one_terminal (p : String) (o : Outcome) (s : PageState)
    (hp : p ≠ "") :
    (∃ rest kind message, kind ≠ ToastKind.loading ∧
      rest.all (fun e => !e.isToast && !e.isPost) = true ∧
      (handleGenerarSubmit p o s).trace =
        s.trace ++
          ([.toast .loading (.str "Generando reporte, por favor espera...") s.nextToastId,
            .post (generarReporteDinamico p)] ++ rest ++
           [.toast kind message s.nextToastId])) ∧
    ((handleGenerarSubmit p o s).trace.drop s.trace.length).countP Effect.isProgress = 1 ∧
    ((handleGenerarSubmit p o s).trace.drop s.trace.length).countP Effect.isTerminal = 1 ∧
    postCount ((handleGenerarSubmit p o s).trace.drop s.trace.length) = 1 ∧
    (handleGenerarSubmit p o s).loading = false := by
  obtain ⟨rest, kind, message, hkind, hshape, hrest⟩ := settleEffects_shape s.nextToastId o
  have htrace := submit_trace_of_ne_empty p o s hp
  rw [hshape] at htrace
  have hdrop : (handleGenerarSubmit p o s).trace.drop s.trace.length =
      [.toast .loading (.str "Generando reporte, por favor espera...") s.nextToastId,
        .post (generarReporteDinamico p)] ++ rest ++ [.toast kind message s.nextToastId] := by
    rw [htrace]
    simp
  have hprog : rest.countP Effect.isProgress = 0 :=
    countP_rest_zero _ rest (by intro e he; cases e <;> simp_all [Effect.isProgress, Effect.isToast])
      hrest
  have hterm : rest.countP Effect.isTerminal = 0 :=
    countP_rest_zero _ rest (by intro e he; cases e <;> simp_all [Effect.isTerminal, Effect.isToast])
      hrest
  have hpost : rest.countP Effect.isPost = 0 := by
    rw [List.countP_eq_zero]
    intro e he hqe
    have h1 := List.all_eq_true.mp hrest e he
    simp [hqe] at h1
  refine ⟨⟨rest, kind, message, hkind, hrest, ?_⟩, ?_, ?_, ?_, ?_⟩
  · rw [htrace]; simp
  · rw [hdrop]
    cases kind <;>
      simp_all [List.countP_append, List.countP_cons, Effect.isProgress]
  · rw [hdrop]
    cases kind <;>
      simp_all [List.countP_append, List.countP_cons, Effect.isTerminal]
  · rw [hdrop]
    simp [postCount, List.countP_append, List.countP_cons, Effect.isPost, hpost]
  · simp [handleGenerarSubmit, begin_of_ne_empty p s hp, handleGenerarSubmit_resume]

theorem C3_one_progress_then_one_terminal_witness :
    ((handleGenerarSubmit "reporte de ventas" (.rejected ⟨some "Failed to fetch", none⟩)
        initialState).trace.drop 0).countP Effect.isTerminal = 1 :=
  (C3_one_progress_then_one_terminal "reporte de ventas"
    (.rejected ⟨some "Failed to fetch", none⟩) initialState (by decide)).2.2.1

/-! ## C4: the saved filename -/

/-- C4: for every declared content type `c` of a successful response, the filename
computed from it, and the file saved by submit, is "reporte_dinamico.xlsx" when `c` is the
spreadsheet MIME type and "reporte_dinamico.pdf" for every other `c`. -/
theorem C4_saved_filename (p c : String) (s : PageState) (hp : p ≠ "") :
    filename c =
      (if c = "application/vnd.openxmlformats-officedocument.spreadsheetml.sheet"
       then "reporte_dinamico.xlsx" else "reporte_dinamico.pdf") ∧
    downloads (handleGenerarSubmit p (.blob c .completes) s).trace =
      downloads s.trace ++
        [if c = "application/vnd.openxmlformats-officedocument.spreadsheetml.sheet"
         then "reporte_dinamico.xlsx" else "reporte_dinamico.pdf"] := by
  rw [submit_trace_of_ne_empty p _ s hp]
  simp only [downloads_append, settleEffects, downloads, List.append_nil, filename]
  by_cases hc : c = "application/vnd.openxmlformats-officedocument.spreadsheetml.sheet"
  · subst hc
    simp
  · simp [hc]

theorem C4_saved_filename_witness :
    downloads (handleGenerarSubmit "reporte de ventas de este mes en excel"
      (.blob "application/vnd.openxmlformats-officedocument.spreadsheetml.sheet" .completes)
      initialState).trace = ["reporte_dinamico.xlsx"] ∧
    downloads (handleGenerarSubmit "reporte" (.blob "" .completes) initialState).trace =
      ["reporte_dinamico.pdf"] ∧
    downloads (handleGenerarSubmit "reporte" (.blob "text/html" .completes) initialState).trace =
      ["reporte_dinamico.pdf"] :=
  ⟨(C4_saved_filename "reporte de ventas de este mes en excel"
      "application/vnd.openxmlformats-officedocument.spreadsheetml.sheet" initialState
      (by decide)).2,
   (C4_saved_filename "reporte" "" initialState (by decide)).2,
   (C4_saved_filename "reporte" "text/html" initialState (by decide)).2⟩

/-! ## C5 and C6: the message of the error notification -/

/-- C5, as stated, fails for `X = ""`: with the body `{"error": ""}` the notification
shows "No se encontraron datos." and not the empty string. -/
theorem C5_empty_error_field_not_verbatim :
    errorMessages (handleGenerarSubmit "reporte inexistente"
      (.rejected ⟨some "HTTP 404", some (.resolves (.obj [("error", .str "")]))⟩)
      initialState).trace = [.str "No se encontraron datos."] ∧
    Json.str "No se encontraron datos." ≠ Json.str "" := by
  constructor
  · rfl
  · simp

/-- C5, amended: when the fetch fails with a response whose JSON body is an object with
`error` field `X`, the error notification shows `X` verbatim for every non-empty string
`X`, and "No se encontraron datos." when `X` is the empty string. -/
theorem C5_structured_error_message (p X : String) (message : Option String)
    (fields : List (String × Json)) (s : PageState) (hp : p ≠ "")
    (hfield : fields.lookup "error" = some (.str X)) :
    (X ≠ "" →
      errorMessages (handleGenerarSubmit p
        (.rejected ⟨message, some (.resolves (.obj fields))⟩) s).trace =
        errorMessages s.trace ++ [.str X]) ∧
    (X = "" →
      errorMessages (handleGenerarSubmit p
        (.rejected ⟨message, some (.resolves (.obj fields))⟩) s).trace =
        errorMessages s.trace ++ [.str "No se encontraron datos."]) := by
  rw [submit_trace_of_ne_empty p _ s hp]
  constructor <;> intro hX <;>
    simp [errorMessages_append, settleEffects, errorMessages, catchMessage, Json.readError,
      hfield, jsOr, Json.truthy, hX]

theorem C5_structured_error_message_witness :
    errorMessages (handleGenerarSubmit "reporte inexistente"
      (.rejected ⟨some "HTTP 404",
        some (.resolves (.obj [("error", .str "No se encontraron datos para los filtros.")]))⟩)
      initialState).trace = [.str "No se encontraron datos para los filtros."] :=
  (C5_structured_error_message "reporte inexistente" "No se encontraron datos para los filtros."
    (some "HTTP 404") [("error", .str "No se encontraron datos para los filtros.")]
    initialState (by decide) rfl).1 (by decide)

/-- C6, as stated, fails for a parseable body without an `error` field: with the body
`{}` the notification shows "No se encontraron datos." and not the generic message
built from `e.message`. -/
theorem C6_object_without_error_field :
    errorMessages (handleGenerarSubmit "reporte"
      (.rejected ⟨some "HTTP 500", some (.resolves (.obj []))⟩) initialState).trace =
      [.str "No se encontraron datos."] ∧
    Json.str "No se encontraron datos." ≠
      Json.str ("Error al generar el reporte: " ++ "HTTP 500") := by
  constructor
  · rfl
  · simp

/-- C6, amended: the error notification is "Error al generar el reporte: " followed by
`e.message` when the failure has no response, when its body cannot be parsed, or when the
body parses to `null`; when the body parses to any other JSON value without an `error`
field, the notification is "No se encontraron datos.". -/
theorem C6_opaque_error_message (p : String) (e : Failure) (s : PageState) (hp : p ≠ "") :
    ((e.response = none ∨ e.response = some .rejects ∨
        e.response = some (.resolves .null)) →
      errorMessages (handleGenerarSubmit p (.rejected e) s).trace =
        errorMessages s.trace ++
          [.str ("Error al generar el reporte: " ++ e.message.getD "undefined")]) ∧
    (∀ value, e.response = some (.resolves value) → value.readError = some none →
      errorMessages (handleGenerarSubmit p (.rejected e) s).trace =
        errorMessages s.trace ++ [.str "No se encontraron datos."]) := by
  rw [submit_trace_of_ne_empty p _ s hp]
  constructor
  · rintro (h | h | h) <;>
      simp [errorMessages_append, settleEffects, errorMessages, catchMessage, h,
        genericMessage, Json.readError]
  · intro value h hread
    simp [errorMessages_append, settleEffects, errorMessages, catchMessage, h, hread, jsOr]

theorem C6_opaque_error_message_witness :
    errorMessages (handleGenerarSubmit "reporte"
      (.rejected ⟨some "Failed to fetch", none⟩) initialState).trace =
      [.str ("Error al generar el reporte: " ++ "Failed to fetch")] ∧
    errorMessages (handleGenerarSubmit "reporte"
      (.rejected ⟨some "HTTP 500", some (.resolves (.obj [("detail", .str "x")]))⟩)
      initialState).trace = [.str "No se encontraron datos."] :=
  ⟨(C6_opaque_error_message "reporte" ⟨some "Failed to fetch", none⟩ initialState
      (by decide)).1 (Or.inl rfl),
   (C6_opaque_error_message "reporte"
      ⟨some "HTTP 500", some (.resolves (.obj [("detail", .str "x")]))⟩ initialState
      (by decide)).2 _ rfl (by simp [Json.readError, List.lookup])⟩

/-! ## Facts about the render cycle -/

theorem effect_isListening (host : Host) (h : SpeechState) :
    (useSpeechRecognition_effect host h).isListening = h.isListening := by
  unfold useSpeechRecognition_effect; split <;> rfl

theorem effect_text (host : Host) (h : SpeechState) :
    (useSpeechRecognition_effect host h).text = h.text := by
  unfold useSpeechRecognition_effect; split <;> rfl

theorem effect_deviceCalls (host : Host) (h : SpeechState) :
    (useSpeechRecognition_effect host h).deviceCalls = h.deviceCalls := by
  unfold useSpeechRecognition_effect; split <;> rfl

theorem effect_ref_isSome (host : Host) (h : SpeechState) (hr : h.recognitionRef.isSome = true) :
    (useSpeechRecognition_effect host h).recognitionRef.isSome = true := by
  unfold useSpeechRecognition_effect; split <;> simp [hr]

theorem commit_trace (host : Host) (a b : PageState) : (commit host a b).trace = b.trace := by
  unfold commit runEffects render
  split
  · rfl
  · dsimp only
    split <;> rfl

theorem commit_inFlight (host : Host) (a b : PageState) :
    (commit host a b).inFlight = b.inFlight := by
  unfold commit runEffects render
  split
  · rfl
  · dsimp only
    split <;> rfl

theorem commit_loading (host : Host) (a b : PageState) :
    (commit host a b).loading = b.loading := by
  unfold commit runEffects render
  split
  · rfl
  · dsimp only
    split <;> rfl

theorem commit_isListening (host : Host) (a b : PageState) :
    (commit host a b).speech.isListening = b.speech.isListening := by
  unfold commit runEffects render
  split
  · rfl
  · dsimp only
    split <;> simp [effect_isListening]

theorem commit_text (host : Host) (a b : PageState) :
    (commit host a b).speech.text = b.speech.text := by
  unfold commit runEffects render
  split
  · rfl
  · dsimp only
    split <;> simp [effect_text]

theorem commit_ref_isSome (host : Host) (a b : PageState)
    (hr : b.speech.recognitionRef.isSome = true) :
    (commit host a b).speech.recognitionRef.isSome = true := by
  unfold commit runEffects render
  split
  · exact hr
  · dsimp only
    split <;> simp [effect_ref_isSome, hr]

/-- The effect on `text` never changes a prompt that is empty-text or already equal to
the text. -/
theorem commit_prompt (host : Host) (a b : PageState)
    (h : b.speech.text = "" ∨ b.prompt = b.speech.text ∨ a.speech.text = b.speech.text) :
    (commit host a b).prompt = b.prompt := by
  unfold commit runEffects render
  split
  · rfl
  · dsimp only
    split
    · rename_i hc
      simp only [effect_text, Bool.and_eq_true, bne_iff_ne, ne_eq] at hc
      rcases h with h | h | h
      · exact absurd h hc.1.2
      · exact absurd h hc.2
      · exact absurd h hc.1.1
    · rfl

theorem startListening_idle (h : SpeechState) (hidle : h.isListening = false)
    (hr : h.recognitionRef.isSome = true) :
    (startListening h).isListening = true ∧ (startListening h).text = "" ∧
    (startListening h).recognitionRef = h.recognitionRef := by
  obtain ⟨r, hr⟩ := Option.isSome_iff_exists.mp hr
  simp [startListening, hr, hidle]

theorem stopListening_isListening (h : SpeechState) (hr : h.recognitionRef.isSome = true) :
    (stopListening h).isListening = false := by
  obtain ⟨r, hr⟩ := Option.isSome_iff_exists.mp hr
  unfold stopListening
  rw [hr]
  dsimp only
  split
  · rfl
  · simp_all

theorem stopListening_text (h : SpeechState) : (stopListening h).text = h.text := by
  unfold stopListening
  split
  · split <;> rfl
  · rfl

theorem commit_self (host : Host) (s : PageState) : commit host s s = s := by
  simp [commit]

theorem commit_supported_of_listening_changed (host : Host) (a b : PageState)
    (h : a.speech.isListening ≠ b.speech.isListening)
    (hr : b.speech.recognitionRef.isSome = true) :
    (commit host a b).supported = true := by
  unfold commit
  rw [if_neg (fun hc => h hc.2.1)]
  unfold runEffects render supported
  dsimp only
  split
  · simp [supported, effect_ref_isSome, hr]
  · exact hr

/-- A click on the voice button while not listening either starts listening (the button
is rendered and a recognizer exists) or changes nothing. -/
theorem micClick_idle (host : Host) (s : PageState) (hidle : s.speech.isListening = false) :
    (s.supported = true ∧ s.speech.recognitionRef.isSome = true ∧
      step host s .micClick = commit host s { s with speech := startListening s.speech } ∧
      (startListening s.speech).isListening = true ∧ (startListening s.speech).text = "" ∧
      (startListening s.speech).recognitionRef = s.speech.recognitionRef) ∨
    step host s .micClick = s := by
  by_cases hs : s.supported = true
  · by_cases hr : s.speech.recognitionRef.isSome = true
    · left
      obtain ⟨h1, h2, h3⟩ := startListening_idle s.speech hidle hr
      exact ⟨hs, hr, by simp [step, handle, hs, hidle], h1, h2, h3⟩
    · right
      have hh : handle s .micClick = s := by
        cases s
        simp_all [handle, startListening]
      simp [step, hh, commit_self]
  · right
    simp [step, handle, hs, commit_self]

/-! ## Facts about the voice wiring -/

theorem begin_prompt (p : String) (s : PageState) :
    (handleGenerarSubmit_begin p s).1.prompt = s.prompt := by
  unfold handleGenerarSubmit_begin; split <;> rfl

theorem begin_speech (p : String) (s : PageState) :
    (handleGenerarSubmit_begin p s).1.speech = s.speech := by
  unfold handleGenerarSubmit_begin; split <;> rfl

theorem begin_trace (p : String) (s : PageState) :
    (handleGenerarSubmit_begin p s).1.trace =
      s.trace ++
        (if p = "" then
          [.toast .error (.str "Por favor, escribe o dicta un comando.") s.nextToastId]
         else
          [.toast .loading (.str "Generando reporte, por favor espera...") s.nextToastId,
           .post (generarReporteDinamico p)]) := by
  unfold handleGenerarSubmit_begin; split <;> simp [PageState.emit]

theorem pageOnresult_speech (t : String) (s : PageState) :
    (pageOnresult t s).speech = { s.speech with text := t, isListening := false } := by
  simp [pageOnresult, recognition_onresult]

theorem pageOnresult_prompt (t : String) (s : PageState) : (pageOnresult t s).prompt = t := by
  simp [pageOnresult, recognition_onresult, onResult, begin_prompt]

theorem pageOnresult_trace (t : String) (s : PageState) :
    (pageOnresult t s).trace = (handleGenerarSubmit_begin t s).1.trace := by
  simp [pageOnresult, recognition_onresult, onResult, begin_trace]

theorem step_result_prompt (host : Host) (t : String) (s : PageState) :
    (step host s (.result t)).prompt = t := by
  unfold step handle
  rw [commit_prompt, pageOnresult_prompt]
  right; left
  rw [pageOnresult_prompt, pageOnresult_speech]

theorem step_result_trace (host : Host) (t : String) (s : PageState) :
    (step host s (.result t)).trace = (handleGenerarSubmit_begin t s).1.trace := by
  unfold step handle
  rw [commit_trace, pageOnresult_trace]

theorem step_micClick_trace (host : Host) (s : PageState) :
    (step host s .micClick).trace = s.trace := by
  simp only [step, handle]
  rw [commit_trace]
  split <;> rfl

theorem step_micClick_inFlight (host : Host) (s : PageState) :
    (step host s .micClick).inFlight = s.inFlight := by
  simp only [step, handle]
  rw [commit_inFlight]
  split <;> rfl

/-- Starting and then stopping through the voice button leaves the page idle with the
same prompt. -/
theorem start_stop_idle (host : Host) (s : PageState) (hidle : s.speech.isListening = false) :
    (run host s [.micClick, .micClick]).speech.isListening = false ∧
    (run host s [.micClick, .micClick]).prompt = s.prompt := by
  simp only [run, List.foldl]
  rcases micClick_idle host s hidle with ⟨hs, hr, hstep, hl, ht, href⟩ | hsame
  · have hne : s.speech.isListening ≠
        ({ s with speech := startListening s.speech } : PageState).speech.isListening := by
      simp [hidle, hl]
    have hsup : (step host s .micClick).supported = true := by
      rw [hstep]
      exact commit_supported_of_listening_changed host _ _ hne (by simp [href, hr])
    have hlis : (step host s .micClick).speech.isListening = true := by
      rw [hstep, commit_isListening]; exact hl
    have hrf : (step host s .micClick).speech.recognitionRef.isSome = true := by
      rw [hstep]; exact commit_ref_isSome host _ _ (by simp [href, hr])
    have hpr : (step host s .micClick).prompt = s.prompt := by
      rw [hstep, commit_prompt]
      left; exact ht
    constructor
    · show (commit host _ (handle _ .micClick)).speech.isListening = false
      rw [commit_isListening]
      simp [handle, hsup, hlis, stopListening_isListening _ hrf]
    · show (commit host _ (handle _ .micClick)).prompt = s.prompt
      rw [commit_prompt]
      · simp [handle, hsup, hpr]
      · right; right
        simp [handle, hsup, hlis, stopListening_text]
  · rw [hsame, hsame]
    exact ⟨hidle, rfl⟩

/-! ## C2: submissions in flight -/

/-- C2, the code at the failing input: on a host with speech recognition the user types
"ventas", starts the microphone and submits the form; while that request is in flight
(`loading = true`) the recognizer delivers "clientes". A second request is issued and two
submissions are in flight, although a form submit in the same state is blocked by the
disabled button; and when the first request settles, `loading` is cleared while the
second request is still in flight. -/
theorem C2_voice_result_while_loading_posts_again :
    (run webkitHost (mount webkitHost) [.change "ventas", .micClick, .formSubmit]).loading = true ∧
    (run webkitHost (mount webkitHost) [.change "ventas", .micClick, .formSubmit]).inFlight = [0] ∧
    postedPrompts
      (run webkitHost (mount webkitHost) [.change "ventas", .micClick, .formSubmit]).trace =
      ["ventas"] ∧
    postedPrompts
      (run webkitHost (mount webkitHost)
        [.change "ventas", .micClick, .formSubmit, .formSubmit]).trace = ["ventas"] ∧
    postedPrompts
      (run webkitHost (mount webkitHost)
        [.change "ventas", .micClick, .formSubmit, .result "clientes"]).trace =
      ["ventas", "clientes"] ∧
    (run webkitHost (mount webkitHost)
      [.change "ventas", .micClick, .formSubmit, .result "clientes"]).inFlight = [0, 1] ∧
    (run webkitHost (mount webkitHost)
      [.change "ventas", .micClick, .formSubmit, .result "clientes",
       .settle 0 (.blob "application/pdf" .completes)]).loading = false ∧
    (run webkitHost (mount webkitHost)
      [.change "ventas", .micClick, .formSubmit, .result "clientes",
       .settle 0 (.blob "application/pdf" .completes)]).inFlight = [1] := by
  refine ⟨by decide, by decide, by decide, by decide, by decide, by decide, by decide, by decide⟩

/-! ## C7: stopping the microphone -/

/-- C7, as stated, fails: after start and stop the page is idle again and the prompt is
still "borrador" (`start` went to recognizer 1, `stop` to recognizer 2, the object the
effect stored after the render that followed the start), yet a transcript delivered by
the recognizer for that session is written to the prompt and submitted. -/
theorem C7_transcript_after_stop_is_submitted :
    (run webkitHost (mount webkitHost)
      [.change "borrador", .micClick, .micClick]).speech.isListening = false ∧
    (run webkitHost (mount webkitHost)
      [.change "borrador", .micClick, .micClick]).speech.deviceCalls = [.start 1, .stop 2] ∧
    (run webkitHost (mount webkitHost) [.change "borrador", .micClick, .micClick]).prompt =
      "borrador" ∧
    (run webkitHost (mount webkitHost)
      [.change "borrador", .micClick, .micClick, .result "reporte de"]).prompt = "reporte de" ∧
    postedPrompts (run webkitHost (mount webkitHost)
      [.change "borrador", .micClick, .micClick, .result "reporte de"]).trace =
      ["reporte de"] := by
  refine ⟨by decide, by decide, by decide, by decide, by decide⟩

/-- C7, amended: when the page is not listening, starting and then stopping leaves
`isListening` false, the prompt unchanged and triggers no submission (the trace and the
set of requests in flight are unchanged); a transcript the recognizer delivers afterwards
is not discarded: it becomes the prompt and, when non-empty, is submitted. -/
theorem C7_start_then_stop (host : Host) (s : PageState) (t : String)
    (hidle : s.speech.isListening = false) :
    (stopListening (startListening s.speech)).isListening = false ∧
    (run host s [.micClick, .micClick]).speech.isListening = false ∧
    (run host s [.micClick, .micClick]).prompt = s.prompt ∧
    (run host s [.micClick, .micClick]).trace = s.trace ∧
    (run host s [.micClick, .micClick]).inFlight = s.inFlight ∧
    (run host s [.micClick, .micClick, .result t]).prompt = t ∧
    postedPrompts (run host s [.micClick, .micClick, .result t]).trace =
      postedPrompts s.trace ++ (if t = "" then [] else [t]) := by
  have h := start_stop_idle host s hidle
  have htr : (run host s [.micClick, .micClick]).trace = s.trace := by
    simp only [run, List.foldl, step_micClick_trace]
  refine ⟨?_, h.1, h.2, htr, ?_, ?_, ?_⟩
  · cases hr : s.speech.recognitionRef <;> simp [startListening, stopListening, hr, hidle]
  · simp only [run, List.foldl, step_micClick_inFlight]
  · simp only [run, List.foldl, step_result_prompt]
  · have : run host s [.micClick, .micClick, .result t] =
        step host (run host s [.micClick, .micClick]) (.result t) := rfl
    rw [this, step_result_trace, begin_trace, htr, postedPrompts_append]
    split <;> simp [postedPrompts, generarReporteDinamico]

theorem C7_start_then_stop_witness :
    (run webkitHost (run webkitHost (mount webkitHost) [.change "borrador"])
      [.micClick, .micClick]).prompt = "borrador" ∧
    (run webkitHost (run webkitHost (mount webkitHost) [.change "borrador"])
      [.micClick, .micClick, .result "reporte de"]).prompt = "reporte de" :=
  ⟨(C7_start_then_stop webkitHost (run webkitHost (mount webkitHost) [.change "borrador"])
      "reporte de" (by decide)).2.2.1,
   (C7_start_then_stop webkitHost (run webkitHost (mount webkitHost) [.change "borrador"])
      "reporte de" (by decide)).2.2.2.2.2.1⟩

/-! ## C8: delivery of a final transcript -/

/-- C8: when the recognizer delivers a final transcript `t`, the page stops listening,
the prompt becomes `t`, the result callback runs exactly once with `t` (an owner that
records its calls has recorded exactly `t`), and exactly one submit of `t` starts: its
progress toast and one request carrying `t` (the validation notice when `t` is empty).
A device error or the end of the session only clears `isListening`: trace, prompt and
requests in flight are unchanged. -/
theorem C8_final_transcript_submitted_once (host : Host) (t : String) (s : PageState)
    (log : List String) :
    (step host s (.result t)).speech.isListening = false ∧
    (step host s (.result t)).speech.text = t ∧
    (step host s (.result t)).prompt = t ∧
    (recognition_onresult (some recordTranscript) t s.speech log).2 = log ++ [t] ∧
    (step host s (.result t)).trace =
      s.trace ++
        (if t = "" then
          [.toast .error (.str "Por favor, escribe o dicta un comando.") s.nextToastId]
         else
          [.toast .loading (.str "Generando reporte, por favor espera...") s.nextToastId,
           .post (generarReporteDinamico t)]) ∧
    postedPrompts (step host s (.result t)).trace =
      postedPrompts s.trace ++ (if t = "" then [] else [t]) ∧
    ((step host s .error).speech.isListening = false ∧ (step host s .error).trace = s.trace ∧
      (step host s .error).prompt = s.prompt ∧ (step host s .error).inFlight = s.inFlight) ∧
    ((step host s .speechEnd).speech.isListening = false ∧
      (step host s .speechEnd).trace = s.trace ∧
      (step host s .speechEnd).prompt = s.prompt ∧
      (step host s .speechEnd).inFlight = s.inFlight) := by
  refine ⟨?_, ?_, step_result_prompt host t s, rfl, ?_, ?_, ⟨?_, ?_, ?_, ?_⟩, ⟨?_, ?_, ?_, ?_⟩⟩
  · simp only [step, handle]
    rw [commit_isListening, pageOnresult_speech]
  · simp only [step, handle]
    rw [commit_text, pageOnresult_speech]
  · rw [step_result_trace, begin_trace]
  · rw [step_result_trace, begin_trace, postedPrompts_append]
    split <;> simp [postedPrompts, generarReporteDinamico]
  · simp only [step, handle]
    rw [commit_isListening]; rfl
  · simp only [step, handle]
    rw [commit_trace]
  · simp only [step, handle]
    rw [commit_prompt]
    right; right; rfl
  · simp only [step, handle]
    rw [commit_inFlight]
  · simp only [step, handle]
    rw [commit_isListening]; rfl
  · simp only [step, handle]
    rw [commit_trace]
  · simp only [step, handle]
    rw [commit_prompt]
    right; right; rfl
  · simp only [step, handle]
    rw [commit_inFlight]

/-! ## C9: the `supported` flag -/

/-- C9, the code at the failing input: on a host that exposes a speech recognition
constructor, `supported` is false in the first render although the effect has then
created the recognizer; it stays false after an event that changes no state (submitting
the empty prompt) and becomes true only with the next state change. -/
theorem C9_first_render_not_supported :
    webkitHost.hasCapability = true ∧
    (render initialState).supported = false ∧
    (mount webkitHost).supported = false ∧
    supported (mount webkitHost).speech = true ∧
    (run webkitHost (mount webkitHost) [.micClick]).speech.isListening = false ∧
    (run webkitHost (mount webkitHost) [.formSubmit]).supported = false ∧
    (run webkitHost (mount webkitHost) [.change "r"]).supported = true := by
  refine ⟨by decide, by decide, by decide, by decide, by decide, by decide, by decide⟩

/-! ## C10: SearchableDropdown -/

theorem removeWhitespace_eq_empty_iff (s : String) :
    removeWhitespace s = "" ↔ isBlank s = true := by
  unfold removeWhitespace isBlank
  rw [show ("" : String) = String.mk [] from rfl, String.ext_iff, List.filter_eq_nil_iff,
    List.all_eq_true]
  simp

theorem itemMatches_of_blank (toLowerCase : String → String) (query : String) (item : Item)
    (h : isBlank (toLowerCase query) = true) : itemMatches toLowerCase query item = true := by
  unfold itemMatches
  rw [(removeWhitespace_eq_empty_iff _).mpr h]
  exact includes_empty _

/-- C10: for every item list and query, `filteredItems` is the filter of `items` by the
test "the name, lowercased and stripped of whitespace, contains the query, lowercased and
stripped of whitespace": an order-preserving sublist holding exactly the matching items.
A query whose lowercase form is blank (the empty or a whitespace-only query) yields all
items, and "No se encontró nada." is shown exactly when the query is not the empty string
and no item matches. -/
theorem C10_filteredItems (toLowerCase : String → String) (items : List Item)
    (query : String) (hlower : toLowerCase "" = "") :
    filteredItems toLowerCase items query = items.filter (itemMatches toLowerCase query) ∧
    (filteredItems toLowerCase items query).Sublist items ∧
    (∀ item, item ∈ filteredItems toLowerCase items query ↔
      item ∈ items ∧
        (removeWhitespace (toLowerCase query)).data <:+:
          (removeWhitespace (toLowerCase item.name)).data) ∧
    (isBlank (toLowerCase query) = true → filteredItems toLowerCase items query = items) ∧
    (showsNothingFound toLowerCase items query = true ↔
      query ≠ "" ∧ ∀ item ∈ items, itemMatches toLowerCase query item = false) := by
  have hfilter :
      filteredItems toLowerCase items query = items.filter (itemMatches toLowerCase query) := by
    unfold filteredItems
    split
    · rename_i hq
      subst hq
      symm
      rw [List.filter_eq_self]
      intro item _
      exact itemMatches_of_blank toLowerCase "" item (by rw [hlower]; rfl)
    · rfl
  refine ⟨hfilter, ?_, ?_, ?_, ?_⟩
  · rw [hfilter]
    exact List.filter_sublist _
  · intro item
    rw [hfilter, List.mem_filter]
    unfold itemMatches
    rw [includes_iff_contained]
  · intro hblank
    rw [hfilter, List.filter_eq_self]
    intro item _
    exact itemMatches_of_blank toLowerCase query item hblank
  · unfold showsNothingFound
    rw [hfilter]
    simp only [Bool.and_eq_true, beq_iff_eq, List.length_eq_zero, bne_iff_ne, ne_eq,
      List.filter_eq_nil_iff, Bool.not_eq_true]
    exact And.comm

theorem C10_filteredItems_witness :
    asciiLower "" = "" ∧
    filteredItems asciiLower [⟨1, "Ana Maria"⟩, ⟨2, "Luis"⟩] " \t" =
      [⟨1, "Ana Maria"⟩, ⟨2, "Luis"⟩] ∧
    filteredItems asciiLower [⟨1, "Ana Maria"⟩, ⟨2, "Luis"⟩] "a M" =
      [⟨1, "Ana Maria"⟩, ⟨2, "Luis"⟩].filter (itemMatches asciiLower "a M") :=
  ⟨rfl,
   (C10_filteredItems asciiLower [⟨1, "Ana Maria"⟩, ⟨2, "Luis"⟩] " \t" rfl).2.2.2.1
     (by decide),
   (C10_filteredItems asciiLower [⟨1, "Ana Maria"⟩, ⟨2, "Luis"⟩] "a M" rfl).1⟩

end SmartSales
